import Mathlib

/-!
Verification of the SceneManager scene-state pipeline
(`Source/SceneManager.cpp`): the texture and material registries, the
transform composer, and the shader-state broadcaster.

Modelling conventions:
* C++ `float`/`double` scene data (colors, scales, positions, shininess)
  is modelled by `ℚ`; the transform matrices, which need trigonometry,
  are modelled over `ℝ`.
* The `m_pShaderManager` pointer is modelled by a `Bool` flag
  (`pShaderManager = true` for a non-null pointer).  Every call through
  the pointer goes through `shaderCall`, which yields `.error ()` when
  the pointer is null — this models a null-pointer dereference fault.
* The shader program's uniform state is modelled explicitly in
  `ShaderUniforms`; each `set…Value` call on the shader manager is a
  field update.
* The texture registry array `m_textureIDs` is declared in
  `SceneManager.h` (not part of the sources here) as a fixed array of
  16 entries, per the specification and the source's own comments
  ("There are up to 16 slots").  A store at an index `≥ 16` is out of
  bounds in C++; it is modelled by the distinguished outcome
  `LoadOutcome.oobWrite`.
-/

namespace SceneManagerSpec

/-- Material descriptor, as in the `OBJECT_MATERIAL` struct used by
`SceneManager` (diffuse color, specular color, shininess, tag). -/
structure OBJECT_MATERIAL where
  diffuseColor : ℚ × ℚ × ℚ
  specularColor : ℚ × ℚ × ℚ
  shininess : ℚ
  tag : String
deriving DecidableEq

/-- Texture registry entry, as in the `TEXTURE_INFO` entries of
`m_textureIDs` (GPU texture handle `ID` plus the symbolic `tag`). -/
structure TEXTURE_INFO where
  ID : Nat
  tag : String
deriving DecidableEq, Inhabited

/-- Result of a successful `stbi_load` call: image dimensions and
channel count (the pixel bytes themselves are irrelevant here). -/
structure DecodedImage where
  width : Nat
  height : Nat
  channels : Nat
deriving DecidableEq

/-- Outcome of `CreateGLTexture`: `ok` models `return true`, `err`
models `return false`, and `oobWrite` models the undefined-behavior
store `m_textureIDs[m_loadedTextures] = …` past the end of the
16-entry array. -/
inductive LoadOutcome where
  | ok
  | err
  | oobWrite
deriving DecidableEq

/-- The uniform state held by the active shader program, keyed by the
uniform names the source writes ("model", "bUseTexture", "objectColor",
"objectTexture", "UVscale", "material.diffuseColor",
"material.specularColor", "material.shininess"). -/
structure ShaderUniforms where
  model : Matrix (Fin 4) (Fin 4) ℝ
  bUseTexture : Bool
  objectColor : ℚ × ℚ × ℚ × ℚ
  objectTexture : Int
  UVscale : ℚ × ℚ
  diffuseColor : ℚ × ℚ × ℚ
  specularColor : ℚ × ℚ × ℚ
  shininess : ℚ

/-- The state a `SceneManager` instance carries: the shader-manager
pointer (null or not) together with the pointed-to shader's uniform
state, the texture registry `m_textureIDs` (first `m_loadedTextures`
entries of the 16-slot array, in load order), and the material
registry `m_objectMaterials`. -/
structure SceneState where
  pShaderManager : Bool
  uniforms : ShaderUniforms
  textureIDs : List TEXTURE_INFO
  objectMaterials : List OBJECT_MATERIAL

/-- The scan loop of `FindTextureSlot` (lines 188–206): walk the
registry with a running index, return the index of the first entry
whose tag matches, `-1` when none does. -/
def findTextureSlotAux (tag : String) : List TEXTURE_INFO → Int → Int
  | [], _ => -1
  | e :: rest, idx => if e.tag = tag then idx else findTextureSlotAux tag rest (idx + 1)

/-- `FindTextureSlot` (lines 188–206): slot index of the texture with
the given tag, `-1` when absent. -/
def FindTextureSlot (tag : String) (st : SceneState) : Int :=
  findTextureSlotAux tag st.textureIDs 0

/-- The scan loop of `FindMaterial` (lines 221–236): on the first entry
whose tag matches, copy its `diffuseColor`, `specularColor` and
`shininess` into the by-reference `material` argument; entries after
the first match are not inspected. -/
def findMaterialAux (tag : String) : List OBJECT_MATERIAL → OBJECT_MATERIAL → OBJECT_MATERIAL
  | [], material => material
  | e :: rest, material =>
    if e.tag = tag then
      { material with
        diffuseColor := e.diffuseColor
        specularColor := e.specularColor
        shininess := e.shininess }
    else findMaterialAux tag rest material

/-- `FindMaterial` (lines 214–239).  The result is the pair of the
`bool` return value and the final value of the by-reference
`material` argument.  Faithful to the source: when the registry is
empty it returns `false`; otherwise it runs the scan loop and then
executes `return(true)` — regardless of whether the loop found a
match. -/
def FindMaterial (tag : String) (materials : List OBJECT_MATERIAL)
    (material : OBJECT_MATERIAL) : Bool × OBJECT_MATERIAL :=
  if materials.length = 0 then (false, material)
  else (true, findMaterialAux tag materials material)

/-- `CreateGLTexture` (lines 60–124).  `image` is the `stbi_load`
result (`none` models a decode failure), `textureID` the handle
produced by `glGenTextures`.  On a decode with channel count 3 or 4
the texture is registered: `m_textureIDs[m_loadedTextures] = …;
m_loadedTextures++`.  The registry array has capacity 16 (declared in
`SceneManager.h`; modelled from the spec); the store is in bounds only
when fewer than 16 textures are registered, otherwise it is the
out-of-bounds outcome.  Any other channel count: `return false`
without touching the registry. -/
def CreateGLTexture (image : Option DecodedImage) (tag : String) (textureID : Nat)
    (st : SceneState) : LoadOutcome × SceneState :=
  match image with
  | some img =>
    if img.channels = 3 ∨ img.channels = 4 then
      if st.textureIDs.length < 16 then
        (.ok, { st with textureIDs := st.textureIDs ++ [⟨textureID, tag⟩] })
      else
        (.oobWrite, st)
    else
      (.err, st)
  | none => (.err, st)

/-- The loop body of `BindGLTextures` (lines 132–140): for `i` from
the given start index, emit the pair (texture unit `GL_TEXTURE0 + i`,
texture handle `m_textureIDs[i].ID`). -/
def bindGLTexturesAux : List TEXTURE_INFO → Nat → List (Nat × Nat)
  | [], _ => []
  | e :: rest, i => (i, e.ID) :: bindGLTexturesAux rest (i + 1)

/-- `BindGLTextures` (lines 132–140): the sequence of
(texture unit, texture handle) bindings the loop issues, in order. -/
def BindGLTextures (st : SceneState) : List (Nat × Nat) :=
  bindGLTexturesAux st.textureIDs 0

/-- A sequence of `CreateGLTexture` calls, as issued by
`LoadSceneTextures`: each input is the decode result, the tag, and the
handle `glGenTextures` would produce; the outcomes are collected in
order. -/
def loadTextures : List (Option DecodedImage × String × Nat) → SceneState →
    List LoadOutcome × SceneState
  | [], st => ([], st)
  | (img, tag, id) :: rest, st =>
    let r := CreateGLTexture img tag id st
    let rr := loadTextures rest r.2
    (r.1 :: rr.1, rr.2)

/-- A call through `m_pShaderManager` (one `set…Value` invocation):
defined only when the pointer is non-null; dereferencing a null
pointer is the fault `.error ()`. -/
def shaderCall (st : SceneState) (f : ShaderUniforms → ShaderUniforms) :
    Except Unit SceneState :=
  if st.pShaderManager then .ok { st with uniforms := f st.uniforms } else .error ()

/-- Degrees to radians, as `glm::radians`. -/
noncomputable def radians (d : ℝ) : ℝ := d * (Real.pi / 180)

/-- The matrix of `glm::scale(glm::vec3(sx, sy, sz))`. -/
noncomputable def glmScaleM (sx sy sz : ℝ) : Matrix (Fin 4) (Fin 4) ℝ :=
  !![sx, 0, 0, 0;
     0, sy, 0, 0;
     0, 0, sz, 0;
     0, 0, 0, 1]

/-- The matrix of `glm::translate(glm::vec3(tx, ty, tz))`: acting on
homogeneous column vectors, the translation sits in the last
column. -/
noncomputable def glmTranslateM (tx ty tz : ℝ) : Matrix (Fin 4) (Fin 4) ℝ :=
  !![1, 0, 0, tx;
     0, 1, 0, ty;
     0, 0, 1, tz;
     0, 0, 0, 1]

/-- The matrix of `glm::rotate(a, glm::vec3(x, y, z))` for a unit axis
(the axes the source passes are the coordinate unit vectors, which
`glm`'s internal normalization leaves unchanged): the Rodrigues
rotation matrix, written here as the row-major matrix of the linear
map that `glm` stores column-major. -/
noncomputable def glmRotateM (a x y z : ℝ) : Matrix (Fin 4) (Fin 4) ℝ :=
  !![Real.cos a + (1 - Real.cos a) * x * x,
     (1 - Real.cos a) * x * y - Real.sin a * z,
     (1 - Real.cos a) * x * z + Real.sin a * y, 0;
     (1 - Real.cos a) * x * y + Real.sin a * z,
     Real.cos a + (1 - Real.cos a) * y * y,
     (1 - Real.cos a) * y * z - Real.sin a * x, 0;
     (1 - Real.cos a) * x * z - Real.sin a * y,
     (1 - Real.cos a) * y * z + Real.sin a * x,
     Real.cos a + (1 - Real.cos a) * z * z, 0;
     0, 0, 0, 1]

/-- The `modelView` computation of `SetTransformations` (lines
254–271): `translation * rotationZ * rotationY * rotationX * scale`,
each rotation built by `glm::rotate` from the degree argument
converted to radians, about the axis the source passes. -/
noncomputable def modelMatrix (sx sy sz xr yr zr px py pz : ℝ) : Matrix (Fin 4) (Fin 4) ℝ :=
  glmTranslateM px py pz *
    glmRotateM (radians zr) 0 0 1 *
    glmRotateM (radians yr) 0 1 0 *
    glmRotateM (radians xr) 1 0 0 *
    glmScaleM sx sy sz

/-- The canonical rotation matrix about the X coordinate axis — the
spec's independently constructed single-axis rotation matrix. -/
noncomputable def rotationXMatrix (a : ℝ) : Matrix (Fin 4) (Fin 4) ℝ :=
  !![1, 0, 0, 0;
     0, Real.cos a, -Real.sin a, 0;
     0, Real.sin a, Real.cos a, 0;
     0, 0, 0, 1]

/-- The canonical rotation matrix about the Y coordinate axis. -/
noncomputable def rotationYMatrix (a : ℝ) : Matrix (Fin 4) (Fin 4) ℝ :=
  !![Real.cos a, 0, Real.sin a, 0;
     0, 1, 0, 0;
     -Real.sin a, 0, Real.cos a, 0;
     0, 0, 0, 1]

/-- The canonical rotation matrix about the Z coordinate axis. -/
noncomputable def rotationZMatrix (a : ℝ) : Matrix (Fin 4) (Fin 4) ℝ :=
  !![Real.cos a, -Real.sin a, 0, 0;
     Real.sin a, Real.cos a, 0, 0;
     0, 0, 1, 0;
     0, 0, 0, 1]

/-- `SetTransformations` (lines 247–277): compute `modelView` and, if
the shader-manager pointer is non-null, write the "model" matrix
uniform. -/
noncomputable def SetTransformations (sx sy sz xr yr zr px py pz : ℝ) (st : SceneState) :
    Except Unit SceneState :=
  if st.pShaderManager then
    shaderCall st (fun u => { u with model := modelMatrix sx sy sz xr yr zr px py pz })
  else .ok st

/-- `SetShaderColor` (lines 285–304): if the shader-manager pointer is
non-null, write "bUseTexture" := false and then the "objectColor"
RGBA uniform. -/
def SetShaderColor (r g b a : ℚ) (st : SceneState) : Except Unit SceneState :=
  if st.pShaderManager then do
    let st1 ← shaderCall st (fun u => { u with bUseTexture := false })
    shaderCall st1 (fun u => { u with objectColor := (r, g, b, a) })
  else .ok st

/-- `SetShaderTexture` (lines 312–323): if the shader-manager pointer
is non-null, write "bUseTexture" := true, resolve the tag to a slot
via `FindTextureSlot`, and write the slot (possibly the sentinel `-1`)
as the "objectTexture" sampler uniform. -/
def SetShaderTexture (textureTag : String) (st : SceneState) : Except Unit SceneState :=
  if st.pShaderManager then do
    let st1 ← shaderCall st (fun u => { u with bUseTexture := true })
    shaderCall st1 (fun u => { u with objectTexture := FindTextureSlot textureTag st1 })
  else .ok st

/-- `SetTextureUVScale` (lines 331–337): if the shader-manager pointer
is non-null, write the "UVscale" uniform. -/
def SetTextureUVScale (u v : ℚ) (st : SceneState) : Except Unit SceneState :=
  if st.pShaderManager then
    shaderCall st (fun un => { un with UVscale := (u, v) })
  else .ok st

/-- `SetShaderMaterial` (lines 345–361).  `material` models the local
`OBJECT_MATERIAL material;` variable, which the source leaves
uninitialized (its value is indeterminate in C++), so it is taken
here as a parameter.  If the material registry is non-empty, run
`FindMaterial` and, when it reports success, write the three material
uniforms through `m_pShaderManager` — note the source performs these
writes with NO null check on the pointer. -/
def SetShaderMaterial (material : OBJECT_MATERIAL) (materialTag : String)
    (st : SceneState) : Except Unit SceneState :=
  if st.objectMaterials.length > 0 then
    let r := FindMaterial materialTag st.objectMaterials material
    if r.1 = true then do
      let st1 ← shaderCall st (fun u => { u with diffuseColor := r.2.diffuseColor })
      let st2 ← shaderCall st1 (fun u => { u with specularColor := r.2.specularColor })
      shaderCall st2 (fun u => { u with shininess := r.2.shininess })
    else .ok st
  else .ok st

/-- The mesh a primitive draw call uses. -/
inductive MeshKind where
  | cylinder
  | taperedCylinder
deriving DecidableEq, Inhabited

/-- One (transform, draw) step of a compound-object builder: the
scale, per-axis rotation degrees and position passed to
`SetTransformations`, and the mesh drawn. -/
structure PrimitiveDraw where
  scaleXYZ : ℚ × ℚ × ℚ
  rotationDegrees : ℚ × ℚ × ℚ
  positionXYZ : ℚ × ℚ × ℚ
  mesh : MeshKind
deriving DecidableEq, Inhabited

/-- The five (scale, rotation, position, mesh) tuples `CreateBottle1`
(lines 835–987) passes to `SetTransformations` before its five draw
calls, in order: sauce cylinder, base cylinder, tapered neck, lid
cylinder, upper neck cylinder. -/
def CreateBottle1Prims (hs1x hs1y hs1z hs1 : ℚ) : List PrimitiveDraw :=
  [{ scaleXYZ := (hs1 * 0.7, hs1 * 2.8, hs1 * 0.7)
     rotationDegrees := (0, 0, 0)
     positionXYZ := (0 + hs1x, hs1 * (0.2 + hs1y), 0 + hs1z)
     mesh := .cylinder },
   { scaleXYZ := (hs1 * 0.8, hs1 * 3.0, hs1 * 0.8)
     rotationDegrees := (0, 0, 0)
     positionXYZ := (0 + hs1x, hs1 * (0 + hs1y), 0 + hs1z)
     mesh := .cylinder },
   { scaleXYZ := (hs1 * 0.8, hs1 * 1.0, hs1 * 0.8)
     rotationDegrees := (0, 0, 0)
     positionXYZ := (0 + hs1x, hs1 * (3.0 + hs1y), 0 + hs1z)
     mesh := .taperedCylinder },
   { scaleXYZ := (hs1 * 0.5, hs1 * 0.7, hs1 * 0.5)
     rotationDegrees := (0, 0, 0)
     positionXYZ := (0 + hs1x, hs1 * (4.8 + hs1y), 0 + hs1z)
     mesh := .cylinder },
   { scaleXYZ := (hs1 * 0.4, hs1 * 1.0, hs1 * 0.4)
     rotationDegrees := (0, 0, 0)
     positionXYZ := (0 + hs1x, hs1 * (4.0 + hs1y), 0 + hs1z)
     mesh := .cylinder }]

/-- The "glass" material registered by `DefineObjectMaterials`
(lines 453–458). -/
def glassMaterial : OBJECT_MATERIAL :=
  { diffuseColor := (0.2, 0.2, 0.2)
    specularColor := (1, 1, 1)
    shininess := 95
    tag := "glass" }

/-- A concrete baseline uniform state for witnesses. -/
def initUniforms : ShaderUniforms :=
  { model := 1
    bUseTexture := false
    objectColor := (0, 0, 0, 1)
    objectTexture := 0
    UVscale := (1, 1)
    diffuseColor := (1, 1, 1)
    specularColor := (1, 1, 1)
    shininess := 1 }

/-- A state whose shader-manager pointer is null and whose material
registry is non-empty. -/
def stNull : SceneState :=
  { pShaderManager := false
    uniforms := initUniforms
    textureIDs := []
    objectMaterials := [glassMaterial] }

/-- A state with a bound shader and a non-empty material registry that
does not contain the tag "wood". -/
def stMiss : SceneState :=
  { pShaderManager := true
    uniforms := initUniforms
    textureIDs := []
    objectMaterials := [glassMaterial] }

/-- A state with a bound shader, a one-entry texture registry and an
empty material registry. -/
def stTex : SceneState :=
  { pShaderManager := true
    uniforms := initUniforms
    textureIDs := [⟨5, "wood"⟩]
    objectMaterials := [] }

/-- A state with a bound shader and an empty registry pair. -/
def stEmpty : SceneState :=
  { pShaderManager := true
    uniforms := initUniforms
    textureIDs := []
    objectMaterials := [] }

/-- A state whose texture registry already holds 16 entries — the full
capacity of the `m_textureIDs` array. -/
def stFull : SceneState :=
  { pShaderManager := true
    uniforms := initUniforms
    textureIDs := List.replicate 16 ⟨0, "t"⟩
    objectMaterials := [] }

/-- With the X unit axis, the Rodrigues matrix of `glm::rotate` is the
canonical rotation matrix about the X coordinate axis. -/
theorem glmRotateM_xAxis (a : ℝ) : glmRotateM a 1 0 0 = rotationXMatrix a := by
  unfold glmRotateM rotationXMatrix
  ext i j
  fin_cases i <;> fin_cases j <;> simp

/-- With the Y unit axis, the Rodrigues matrix of `glm::rotate` is the
canonical rotation matrix about the Y coordinate axis. -/
theorem glmRotateM_yAxis (a : ℝ) : glmRotateM a 0 1 0 = rotationYMatrix a := by
  unfold glmRotateM rotationYMatrix
  ext i j
  fin_cases i <;> fin_cases j <;> simp

/-- With the Z unit axis, the Rodrigues matrix of `glm::rotate` is the
canonical rotation matrix about the Z coordinate axis. -/
theorem glmRotateM_zAxis (a : ℝ) : glmRotateM a 0 0 1 = rotationZMatrix a := by
  unfold glmRotateM rotationZMatrix
  ext i j
  fin_cases i <;> fin_cases j <;> simp

/-- 90 degrees is π/2 radians. -/
theorem radians_90 : radians 90 = Real.pi / 2 := by
  unfold radians; ring

/-- A `glm::rotate` by 0 degrees about the Y axis is the identity. -/
theorem glmRotateM_y_zero : glmRotateM (radians 0) 0 1 0 = 1 := by
  have h : radians 0 = 0 := by simp [radians]
  rw [h]
  unfold glmRotateM
  ext i j
  fin_cases i <;> fin_cases j <;> simp [Matrix.one_apply, Matrix.vecHead, Matrix.vecTail]

/-- A `glm::rotate` by 0 degrees about the Z axis is the identity. -/
theorem glmRotateM_z_zero : glmRotateM (radians 0) 0 0 1 = 1 := by
  have h : radians 0 = 0 := by simp [radians]
  rw [h]
  unfold glmRotateM
  ext i j
  fin_cases i <;> fin_cases j <;> simp [Matrix.one_apply, Matrix.vecHead, Matrix.vecTail]

/-- Scaling by (1,1,1) is the identity. -/
theorem glmScaleM_one : glmScaleM 1 1 1 = 1 := by
  unfold glmScaleM
  ext i j
  fin_cases i <;> fin_cases j <;> simp [Matrix.one_apply, Matrix.vecHead, Matrix.vecTail]

/-- Translating by (0,0,0) is the identity. -/
theorem glmTranslateM_zero : glmTranslateM 0 0 0 = 1 := by
  unfold glmTranslateM
  ext i j
  fin_cases i <;> fin_cases j <;> simp [Matrix.one_apply, Matrix.vecHead, Matrix.vecTail]

/-- `glm::rotate` by 90 degrees about the X axis, evaluated. -/
theorem glmRotateM_x_90 :
    glmRotateM (radians 90) 1 0 0 = !![1, 0, 0, 0; 0, 0, -1, 0; 0, 1, 0, 0; 0, 0, 0, 1] := by
  rw [radians_90]
  unfold glmRotateM
  ext i j
  fin_cases i <;> fin_cases j <;>
    simp [Real.cos_pi_div_two, Real.sin_pi_div_two]

/-- The composed matrix at scale (1,1,1), rotation (90,0,0) degrees,
translation (0,0,0) is exactly the 90-degree X rotation. -/
theorem modelMatrix_at_x90 :
    modelMatrix 1 1 1 90 0 0 0 0 0
      = !![1, 0, 0, 0; 0, 0, -1, 0; 0, 1, 0, 0; 0, 0, 0, 1] := by
  unfold modelMatrix
  rw [glmTranslateM_zero, glmRotateM_z_zero, glmRotateM_y_zero, glmScaleM_one,
    glmRotateM_x_90]
  simp

/-- That matrix maps the homogeneous +Y unit point to the +Z unit
point. -/
theorem modelMatrix_at_x90_mulVec :
    (modelMatrix 1 1 1 90 0 0 0 0 0).mulVec ![0, 1, 0, 1] = ![0, 0, 1, 1] := by
  rw [modelMatrix_at_x90]
  funext i
  fin_cases i <;>
    simp [Matrix.mulVec, Matrix.dotProduct, Fin.sum_univ_four]

/-- C4: the model matrix `SetTransformations` pushes to the shader is
the product Translate * RotateZ * RotateY * RotateX * Scale of the
five independently constructed matrices, each rotation being the
canonical single-axis rotation matrix at the degree argument
converted to radians; consequently the transform acts on a vector by
scaling first, then rotating about X, then Y, then Z, then
translating; and the broadcaster writes exactly this matrix into the
"model" uniform whenever the shader-manager pointer is non-null
(leaving the uniform unchanged otherwise). -/
theorem C4_transform_composition (sx sy sz xr yr zr px py pz : ℝ) :
    modelMatrix sx sy sz xr yr zr px py pz
      = glmTranslateM px py pz * rotationZMatrix (radians zr) *
          rotationYMatrix (radians yr) * rotationXMatrix (radians xr) *
          glmScaleM sx sy sz
    ∧ (∀ v : Fin 4 → ℝ,
        (modelMatrix sx sy sz xr yr zr px py pz).mulVec v
          = (glmTranslateM px py pz).mulVec
              ((rotationZMatrix (radians zr)).mulVec
                ((rotationYMatrix (radians yr)).mulVec
                  ((rotationXMatrix (radians xr)).mulVec
                    ((glmScaleM sx sy sz).mulVec v)))))
    ∧ (∀ st : SceneState,
        (SetTransformations sx sy sz xr yr zr px py pz st).map
            (fun s => s.uniforms.model)
          = .ok (if st.pShaderManager then
              glmTranslateM px py pz * rotationZMatrix (radians zr) *
                rotationYMatrix (radians yr) * rotationXMatrix (radians xr) *
                glmScaleM sx sy sz
            else st.uniforms.model)) := by
  have h1 : modelMatrix sx sy sz xr yr zr px py pz
      = glmTranslateM px py pz * rotationZMatrix (radians zr) *
          rotationYMatrix (radians yr) * rotationXMatrix (radians xr) *
          glmScaleM sx sy sz := by
    unfold modelMatrix
    rw [glmRotateM_zAxis, glmRotateM_yAxis, glmRotateM_xAxis]
  refine ⟨h1, ?_, ?_⟩
  · intro v
    rw [h1]
    simp [Matrix.mulVec_mulVec, mul_assoc]
  · intro st
    by_cases h : st.pShaderManager <;>
      simp [SetTransformations, shaderCall, h, Except.map, h1]

/-- C5 counterexample: the claim says the composed transform at scale
(1,1,1), rotation (90,0,0) degrees, translation (0,0,0) maps the unit
vector along +Y to the unit vector along -Z.  It does not: evaluated
on the +Y homogeneous unit point, the composed matrix does not
produce the -Z unit point. -/
theorem C5_counterexample :
    (modelMatrix 1 1 1 90 0 0 0 0 0).mulVec ![0, 1, 0, 1] ≠ ![0, 0, -1, 1] := by
  rw [modelMatrix_at_x90_mulVec]
  intro h
  have h2 := congrFun h 2
  norm_num at h2

/-- C5 amended: the composed transform at scale (1,1,1), rotation
(90,0,0) degrees, translation (0,0,0) maps the unit vector along +Y
to the unit vector along +Z (the right-handed rotation about +X by
+90° carries +Y onto +Z, not onto -Z). -/
theorem C5_rotation_maps_y_to_plus_z :
    (modelMatrix 1 1 1 90 0 0 0 0 0).mulVec ![0, 1, 0, 1] = ![0, 0, 1, 1] :=
  modelMatrix_at_x90_mulVec

/-- C1: the claim says `FindMaterial` returns a failure indicator both
when the registry is empty and when it is non-empty with no matching
entry, and success only on a match.  The code violates the non-empty
half: evaluated on a one-entry registry holding only the tag "glass",
a query for "wood" returns `true` (success) while leaving the
by-reference material argument untouched — the scan loop tracks
`bFound` but the function unconditionally executes `return(true)`
whenever the registry is non-empty. -/
theorem C1_findMaterial_eval :
    ∀ junk : OBJECT_MATERIAL,
      (FindMaterial ("wood") [] junk).1 = false
      ∧ (FindMaterial ("wood") [glassMaterial] junk).1 = true
      ∧ (FindMaterial ("wood") [glassMaterial] junk).2 = junk := by
  intro junk
  refine ⟨rfl, rfl, ?_⟩
  simp [FindMaterial, findMaterialAux, glassMaterial]

/-- C2: the claim says `SetShaderMaterial` on an absent tag writes no
material uniforms, both for an empty and a non-empty registry.  The
empty half holds, but on a non-empty registry `FindMaterial` reports
success even on a miss, so the code writes all three material
uniforms — with the fields of the caller's uninitialized local
`OBJECT_MATERIAL` (modelled by the parameter `junk`; its value is
indeterminate in C++).  Evaluated at registry `[glassMaterial]` and
the absent tag "wood". -/
theorem C2_setShaderMaterial_eval :
    ∀ junk : OBJECT_MATERIAL,
      SetShaderMaterial junk ("wood") stEmpty = .ok stEmpty
      ∧ (SetShaderMaterial junk ("wood") stMiss).map
          (fun s => (s.uniforms.diffuseColor, s.uniforms.specularColor, s.uniforms.shininess))
          = .ok (junk.diffuseColor, junk.specularColor, junk.shininess) := by
  intro junk
  constructor
  · rfl
  · simp [SetShaderMaterial, FindMaterial, findMaterialAux, shaderCall, stMiss,
      glassMaterial, Except.map, Bind.bind, Except.bind]

/-- C6: the claim says each of the five shader-state broadcaster
operations is a safe no-op when the shader-manager pointer is null.
Four of them are guarded and indeed leave the state unchanged, but
`SetShaderMaterial` has no null check: on a null pointer with a
non-empty material registry it dereferences the null pointer (a
fault, modelled as `.error ()`), because the buggy `FindMaterial`
reports success whenever the registry is non-empty. -/
theorem C6_null_shader_eval :
    ∀ (junk : OBJECT_MATERIAL) (sx sy sz xr yr zr px py pz : ℝ)
      (r g b a u v : ℚ) (texTag : String),
      SetTransformations sx sy sz xr yr zr px py pz stNull = .ok stNull
      ∧ SetShaderColor r g b a stNull = .ok stNull
      ∧ SetShaderTexture texTag stNull = .ok stNull
      ∧ SetTextureUVScale u v stNull = .ok stNull
      ∧ SetShaderMaterial junk ("glass") stNull = .error () := by
  intro junk sx sy sz xr yr zr px py pz r g b a u v texTag
  refine ⟨rfl, rfl, rfl, rfl, ?_⟩
  simp [SetShaderMaterial, FindMaterial, findMaterialAux, shaderCall, stNull,
    glassMaterial, Bind.bind, Except.bind]

/-- C9: an image that decodes with a channel count that is neither 3
nor 4 makes `CreateGLTexture` return `false` and leaves the scene
state — in particular the texture registry and its entry count —
unchanged. -/
theorem C9_channel_rejection (img : DecodedImage) (tag : String) (textureID : Nat)
    (st : SceneState) (h3 : img.channels ≠ 3) (h4 : img.channels ≠ 4) :
    CreateGLTexture (some img) tag textureID st = (.err, st) := by
  simp [CreateGLTexture, h3, h4]

/-- Witness for C9 at a concrete 2-channel image and a concrete
state. -/
theorem C9_channel_rejection_witness :
    (8 : Nat) ≠ 3 ∧ (8 : Nat) ≠ 4
    ∧ CreateGLTexture (some ⟨8, 8, 8⟩) ("gray") 7 stEmpty = (.err, stEmpty) :=
  ⟨by decide, by decide,
    C9_channel_rejection ⟨8, 8, 8⟩ ("gray") 7 stEmpty (by decide) (by decide)⟩

/-- C10: `CreateGLTexture` enforces no capacity limit: a successful
decode with a supported channel count is never rejected (`.err`); it
is registered by the store `m_textureIDs[m_loadedTextures] = …` and a
count increment whenever fewer than 16 textures are loaded, and once
the 16-slot capacity is reached the very same unguarded store is out
of bounds — no code path compares the count against the capacity to
refuse the load. -/
theorem C10_no_capacity_check (img : DecodedImage) (tag : String) (textureID : Nat)
    (st : SceneState) (hch : img.channels = 3 ∨ img.channels = 4) :
    (CreateGLTexture (some img) tag textureID st).1 ≠ .err
    ∧ (st.textureIDs.length < 16 →
        CreateGLTexture (some img) tag textureID st
          = (.ok, { st with textureIDs := st.textureIDs ++ [⟨textureID, tag⟩] }))
    ∧ (16 ≤ st.textureIDs.length →
        CreateGLTexture (some img) tag textureID st = (.oobWrite, st)) := by
  refine ⟨?_, ?_, ?_⟩
  · by_cases hlt : st.textureIDs.length < 16 <;> simp [CreateGLTexture, hch, hlt]
  · intro hlt; simp [CreateGLTexture, hch, hlt]
  · intro hge
    have hlt : ¬ st.textureIDs.length < 16 := by omega
    simp [CreateGLTexture, hch, hlt]

/-- Witness for C10 at a concrete 3-channel image and the concrete
full 16-entry registry state, exercising the out-of-bounds branch. -/
theorem C10_no_capacity_check_witness :
    ((3 : Nat) = 3 ∨ (3 : Nat) = 4)
    ∧ ((CreateGLTexture (some ⟨2, 2, 3⟩) ("extra") 9 stFull).1 ≠ .err
      ∧ (stFull.textureIDs.length < 16 →
          CreateGLTexture (some ⟨2, 2, 3⟩) ("extra") 9 stFull
            = (.ok, { stFull with textureIDs := stFull.textureIDs ++ [⟨9, "extra"⟩] }))
      ∧ (16 ≤ stFull.textureIDs.length →
          CreateGLTexture (some ⟨2, 2, 3⟩) ("extra") 9 stFull = (.oobWrite, stFull))) :=
  ⟨Or.inl rfl, C10_no_capacity_check ⟨2, 2, 3⟩ ("extra") 9 stFull (Or.inl rfl)⟩

/-- C3 counterexample: the claim says the `2s` build yields, for each
primitive, a position exactly 2 times the position of the `s` build
with the same translation offsets.  At offsets `(1, 0, 0)` and scale
factors `1` versus `2`, the first primitive's position is `(1, 2/5,
0)` in the `2s` build and `(1, 1/5, 0)` in the `s` build — and `(1,
2/5, 0)` is not 2 times `(1, 1/5, 0)`, whose double is `(2, 2/5, 0)`:
the x offset is not multiplied by the scale factor. -/
theorem C3_counterexample :
    ((CreateBottle1Prims 1 0 0 2).getD 0 default).positionXYZ = (1, 2/5, 0)
    ∧ ((CreateBottle1Prims 1 0 0 1).getD 0 default).positionXYZ = (1, 1/5, 0)
    ∧ ¬ (((1 : ℚ), (2/5 : ℚ), (0 : ℚ))
          = (2 * (1 : ℚ), 2 * (1/5 : ℚ), 2 * (0 : ℚ))) := by
  refine ⟨?_, ?_, by norm_num [Prod.mk.injEq]⟩ <;> simp [CreateBottle1Prims] <;> norm_num

/-- The scan loop returns the sentinel `-1` when no registry entry
carries the queried tag. -/
theorem findTextureSlotAux_not_mem (tag : String) (l : List TEXTURE_INFO) (n : Int)
    (h : ∀ e ∈ l, e.tag ≠ tag) : findTextureSlotAux tag l n = -1 := by
  induction l generalizing n with
  | nil => rfl
  | cons e rest ih =>
    have h1 : e.tag ≠ tag := h e (by simp)
    simp only [findTextureSlotAux, if_neg h1]
    exact ih (n + 1) (fun x hx => h x (by simp [hx]))

/-- When the registry tags are pairwise distinct, the scan loop
started at accumulator `n` finds the k-th entry's tag at `n + k`. -/
theorem findTextureSlotAux_pos (l : List TEXTURE_INFO)
    (h : (l.map TEXTURE_INFO.tag).Nodup) (k : Nat) (hk : k < l.length) (n : Int) :
    findTextureSlotAux (l[k].tag) l n = n + k := by
  induction l generalizing k n with
  | nil => simp at hk
  | cons e rest ih =>
    rw [List.map_cons, List.nodup_cons] at h
    cases k with
    | zero => simp [findTextureSlotAux]
    | succ k =>
      have hk2 : k < rest.length := by simpa using hk
      have hmem : rest[k].tag ∈ rest.map TEXTURE_INFO.tag :=
        List.mem_map_of_mem _ (by simp)
      have hne : e.tag ≠ rest[k].tag := by
        intro hEq
        exact h.1 (hEq ▸ hmem)
      simp only [List.getElem_cons_succ, findTextureSlotAux, if_neg hne]
      rw [ih h.2 k hk2 (n + 1)]
      push_cast
      ring

/-- A sequence of `CreateGLTexture` calls whose images all decode with
a supported channel count, starting from a registry with room for all
of them, succeeds at every step and appends one entry per call, in
load order. -/
theorem loadTextures_spec (inputs : List (DecodedImage × String × Nat)) :
    ∀ st : SceneState,
      (∀ p ∈ inputs, p.1.channels = 3 ∨ p.1.channels = 4) →
      st.textureIDs.length + inputs.length ≤ 16 →
      (loadTextures (inputs.map (fun p => (some p.1, p.2))) st).2.textureIDs
          = st.textureIDs ++ inputs.map (fun p => ⟨p.2.2, p.2.1⟩)
      ∧ ∀ o ∈ (loadTextures (inputs.map (fun p => (some p.1, p.2))) st).1, o = .ok := by
  induction inputs with
  | nil =>
    intro st _ _
    simp [loadTextures]
  | cons p rest ih =>
    intro st hvalid hlen
    obtain ⟨img, tag, id⟩ := p
    have hch : img.channels = 3 ∨ img.channels = 4 := hvalid (img, tag, id) (by simp)
    have hlt : st.textureIDs.length < 16 := by
      simp only [List.length_cons] at hlen
      omega
    simp only [List.map_cons, loadTextures, CreateGLTexture, if_pos hch, if_pos hlt]
    have hrec := ih { st with textureIDs := st.textureIDs ++ [⟨id, tag⟩] }
      (fun q hq => hvalid q (by simp [hq]))
      (by simp only [List.length_append, List.length_singleton, List.length_nil,
            List.length_cons] at hlen ⊢; omega)
    refine ⟨?_, ?_⟩
    · rw [hrec.1]
      simp
    · intro o ho
      simp only [List.mem_cons] at ho
      rcases ho with h1 | h2
      · exact h1
      · exact hrec.2 o h2

/-- The `BindGLTextures` loop starting at unit `n` enumerates the
texture handles from `n`. -/
theorem bindGLTexturesAux_eq (l : List TEXTURE_INFO) :
    ∀ n : Nat, bindGLTexturesAux l n = List.enumFrom n (l.map (fun e => e.ID)) := by
  induction l with
  | nil => intro n; rfl
  | cons e rest ih =>
    intro n
    simp [bindGLTexturesAux, List.enumFrom, ih]

/-- C7: after any sequence of N successful, pairwise-distinct-tag
texture loads into an initially empty registry, `FindTextureSlot` on
the k-th loaded tag returns k, and `BindGLTextures` issues exactly N
bindings, binding the k-th loaded texture handle to texture unit k. -/
theorem C7_slot_stability (inputs : List (DecodedImage × String × Nat)) (st : SceneState)
    (hempty : st.textureIDs = [])
    (hvalid : ∀ p ∈ inputs, p.1.channels = 3 ∨ p.1.channels = 4)
    (hnodup : (inputs.map (fun p => p.2.1)).Nodup)
    (hlen : inputs.length ≤ 16) :
    (∀ o ∈ (loadTextures (inputs.map (fun p => (some p.1, p.2))) st).1, o = .ok)
    ∧ (∀ k (hk : k < inputs.length),
        FindTextureSlot (inputs[k].2.1)
            (loadTextures (inputs.map (fun p => (some p.1, p.2))) st).2
          = (k : Int))
    ∧ (BindGLTextures (loadTextures (inputs.map (fun p => (some p.1, p.2))) st).2).length
        = inputs.length
    ∧ BindGLTextures (loadTextures (inputs.map (fun p => (some p.1, p.2))) st).2
        = (inputs.map (fun p => p.2.2)).enum := by
  obtain ⟨hreg, hok⟩ := loadTextures_spec inputs st hvalid (by rw [hempty]; simpa using hlen)
  have hfin : (loadTextures (inputs.map (fun p => (some p.1, p.2))) st).2.textureIDs
      = inputs.map (fun p => ⟨p.2.2, p.2.1⟩) := by
    rw [hreg, hempty, List.nil_append]
  have hbind : BindGLTextures (loadTextures (inputs.map (fun p => (some p.1, p.2))) st).2
      = (inputs.map (fun p => p.2.2)).enum := by
    unfold BindGLTextures
    rw [hfin, bindGLTexturesAux_eq, List.map_map, List.enum]
    rfl
  refine ⟨hok, ?_, ?_, hbind⟩
  · intro k hk
    unfold FindTextureSlot
    rw [hfin]
    have hnodup2 : ((inputs.map (fun p => (⟨p.2.2, p.2.1⟩ : TEXTURE_INFO))).map
        TEXTURE_INFO.tag).Nodup := by
      rw [List.map_map]
      exact hnodup
    have hk2 : k < (inputs.map (fun p => (⟨p.2.2, p.2.1⟩ : TEXTURE_INFO))).length := by
      simpa using hk
    have hpos := findTextureSlotAux_pos _ hnodup2 k hk2 0
    rw [List.getElem_map] at hpos
    simpa using hpos
  · rw [hbind]
    simp [List.enum_length]

/-- Witness for C7: three concrete loads with distinct tags into the
empty-registry state; the slots come back 0, 1, 2 and the bindings
are ((0, 10), (1, 11), (2, 12)). -/
theorem C7_slot_stability_witness :
    stEmpty.textureIDs = []
    ∧ (∀ p ∈ [((⟨2, 2, 3⟩ : DecodedImage), ("wood", 10)),
        (⟨2, 2, 4⟩, ("wall", 11)), (⟨2, 2, 3⟩, ("lid", 12))],
        p.1.channels = 3 ∨ p.1.channels = 4)
    ∧ (([((⟨2, 2, 3⟩ : DecodedImage), ("wood", 10)), (⟨2, 2, 4⟩, ("wall", 11)),
        (⟨2, 2, 3⟩, ("lid", 12))].map (fun p => p.2.1)).Nodup)
    ∧ ((∀ o ∈ (loadTextures ([((⟨2, 2, 3⟩ : DecodedImage), ("wood", 10)),
            (⟨2, 2, 4⟩, ("wall", 11)), (⟨2, 2, 3⟩, ("lid", 12))].map
            (fun p => (some p.1, p.2))) stEmpty).1, o = .ok)
      ∧ (∀ k (hk : k < [((⟨2, 2, 3⟩ : DecodedImage), ("wood", 10)),
            (⟨2, 2, 4⟩, ("wall", 11)), (⟨2, 2, 3⟩, ("lid", 12))].length),
          FindTextureSlot ([((⟨2, 2, 3⟩ : DecodedImage), ("wood", 10)),
              (⟨2, 2, 4⟩, ("wall", 11)), (⟨2, 2, 3⟩, ("lid", 12))][k].2.1)
              (loadTextures ([((⟨2, 2, 3⟩ : DecodedImage), ("wood", 10)),
                (⟨2, 2, 4⟩, ("wall", 11)), (⟨2, 2, 3⟩, ("lid", 12))].map
                (fun p => (some p.1, p.2))) stEmpty).2
            = (k : Int))
      ∧ (BindGLTextures (loadTextures ([((⟨2, 2, 3⟩ : DecodedImage), ("wood", 10)),
            (⟨2, 2, 4⟩, ("wall", 11)), (⟨2, 2, 3⟩, ("lid", 12))].map
            (fun p => (some p.1, p.2))) stEmpty).2).length
          = [((⟨2, 2, 3⟩ : DecodedImage), ("wood", 10)), (⟨2, 2, 4⟩, ("wall", 11)),
            (⟨2, 2, 3⟩, ("lid", 12))].length
      ∧ BindGLTextures (loadTextures ([((⟨2, 2, 3⟩ : DecodedImage), ("wood", 10)),
            (⟨2, 2, 4⟩, ("wall", 11)), (⟨2, 2, 3⟩, ("lid", 12))].map
            (fun p => (some p.1, p.2))) stEmpty).2
          = ([((⟨2, 2, 3⟩ : DecodedImage), ("wood", 10)), (⟨2, 2, 4⟩, ("wall", 11)),
            (⟨2, 2, 3⟩, ("lid", 12))].map (fun p => p.2.2)).enum) :=
  ⟨rfl, by decide, by decide,
    C7_slot_stability _ stEmpty rfl (by decide) (by decide) (by decide)⟩

/-- C8: with a shader bound and a tag absent from the texture
registry, `SetShaderTexture` still writes "bUseTexture" := true and
forwards the sentinel slot `-1` as the sampler uniform. -/
theorem C8_texture_miss_sentinel (tag : String) (st : SceneState)
    (hsh : st.pShaderManager = true)
    (habs : ∀ e ∈ st.textureIDs, e.tag ≠ tag) :
    (SetShaderTexture tag st).map
        (fun s => (s.uniforms.bUseTexture, s.uniforms.objectTexture))
      = .ok (true, -1) := by
  have hmiss : findTextureSlotAux tag st.textureIDs 0 = -1 :=
    findTextureSlotAux_not_mem tag st.textureIDs 0 habs
  simp [SetShaderTexture, shaderCall, hsh, Except.map, Bind.bind, Except.bind,
    FindTextureSlot, hmiss]

/-- Witness for C8 at the concrete one-entry registry state `stTex`
and the absent tag "nope". -/
theorem C8_texture_miss_sentinel_witness :
    stTex.pShaderManager = true
    ∧ (∀ e ∈ stTex.textureIDs, e.tag ≠ "nope")
    ∧ (SetShaderTexture ("nope") stTex).map
        (fun s => (s.uniforms.bUseTexture, s.uniforms.objectTexture))
      = .ok (true, -1) :=
  ⟨rfl, by decide, C8_texture_miss_sentinel ("nope") stTex rfl (by decide)⟩

/-- C3 amended: doubling the scale factor (same translation offsets)
doubles every constituent primitive's scale vector and the
y-component of its position; the x and z components of every
primitive's position equal the unchanged x and z translation offsets
in both builds (so they double only when those offsets are zero). -/
theorem C3_proportional_scaling_amended (hs1x hs1y hs1z hs1 : ℚ) :
    List.Forall₂
      (fun p q =>
        p.scaleXYZ = (2 * q.scaleXYZ.1, 2 * q.scaleXYZ.2.1, 2 * q.scaleXYZ.2.2)
        ∧ p.positionXYZ.2.1 = 2 * q.positionXYZ.2.1
        ∧ p.positionXYZ.1 = hs1x ∧ q.positionXYZ.1 = hs1x
        ∧ p.positionXYZ.2.2 = hs1z ∧ q.positionXYZ.2.2 = hs1z)
      (CreateBottle1Prims hs1x hs1y hs1z (2 * hs1))
      (CreateBottle1Prims hs1x hs1y hs1z hs1) := by
  unfold CreateBottle1Prims
  refine .cons ?_ (.cons ?_ (.cons ?_ (.cons ?_ (.cons ?_ .nil)))) <;>
    simp only [Prod.mk.injEq] <;>
    refine ⟨⟨?_, ?_, ?_⟩, ?_, ?_, ?_, ?_, ?_⟩ <;>
    ring

end SceneManagerSpec
